import Mathlib

/-!
Verification development for the gin-oidc middleware (src/ginoidc.go).

The middleware protects routes behind an OIDC authorization-code flow.  Its
per-request handlers (`protectMiddleware`, `callbackHandler`, `logoutHandler`)
read and mutate a per-visitor session that stores dynamically typed values
under fixed string keys, and they interact with external collaborators (the
OAuth2 token exchange, the ID-token verifier, the session store) whose
outcomes are modelled here as explicit oracle inputs.

Modelling conventions:
* A Go `interface{}` value held in the session is a `GoVal`: `nil`, a
  `bool`, a `string`, or a value of any other dynamic type (`vother`).
* The session is the list of its `(key, value)` writes, most recent first;
  `Session.get` returns the most recent write for a key and `vnil` for a key
  never written, matching the gin-contrib/sessions get/set semantics used by
  the source.
* A Go unchecked type assertion `v.(T)` on an incompatible value is a runtime
  panic, modelled by `Except Crash _` with `Crash.typeAssertion`; `log.Fatal`
  is `Crash.fatal`.  The checked form `v, ok := x.(T)` is `GoVal.asStr?`.
* Each handler returns the final in-memory session together with the list of
  observable effects it performed, in program order: session saves, calls to
  the ID-token verifier, errors recorded on the gin context, invocations of
  the configured error handler, aborts, redirects and `c.Next()`.
-/

deriving instance DecidableEq for Except

namespace GinOidc

/-- A dynamically typed Go value as stored in the session
(`interface\x7b\x7d`): nil, a bool, a string, or a value of any other
type. -/
inductive GoVal where
  | vnil
  | vbool (b : Bool)
  | vstr (s : String)
  | vother
deriving DecidableEq, Repr

/-- Checked type assertion `v, ok := x.(string)`: `some` exactly when the
value is a string (a nil interface yields `ok = false`). -/
def GoVal.asStr? : GoVal → Option String
  | .vstr s => some s
  | _ => none

/-- Whether the value can appear where the code runs `v != nil && v.(bool)`
without panicking: nil or a bool. -/
def GoVal.isBoolish : GoVal → Bool
  | .vnil => true
  | .vbool _ => true
  | _ => false

/-- Whether the value can appear where the code runs
`v != nil && v.(string) != ""` without panicking: nil or a string. -/
def GoVal.isStrish : GoVal → Bool
  | .vnil => true
  | .vstr _ => true
  | _ => false

/-- Whether the value is a non-empty string. -/
def GoVal.isNonemptyStr : GoVal → Bool
  | .vstr s => decide (s ≠ "")
  | _ => false

/-- The per-visitor session: the list of `(key, value)` writes, most recent
first.  The source only ever touches the five well-known keys
`oidcAuthorized`, `oidcState`, `oidcOriginalRequestUrl`, `oidcClaims` and
`oidcIDToken`. -/
structure Session where
  entries : List (String × GoVal)
deriving DecidableEq, Repr

/-- `serverSession.Get k`: the most recent value written under `k`, or the
nil interface for a key never written. -/
def Session.get (s : Session) (k : String) : GoVal :=
  go s.entries
where
  go : List (String × GoVal) → GoVal
    | [] => .vnil
    | (k₂, v) :: rest => if k₂ = k then v else go rest

/-- `serverSession.Set k v`. -/
def Session.set (s : Session) (k : String) (v : GoVal) : Session :=
  ⟨(k, v) :: s.entries⟩

theorem Session.get_set_same (s : Session) (k : String) (v : GoVal) :
    (s.set k v).get k = v := by
  simp [Session.get, Session.set, Session.get.go]

theorem Session.get_set_ne (s : Session) (k₂ k : String) (v : GoVal)
    (h : k₂ ≠ k) : (s.set k₂ v).get k = s.get k := by
  simp [Session.get, Session.set, Session.get.go, h]

/-- A redirect target issued by a handler. -/
inductive RTarget where
  | url (u : String)
  | authCode (state : String)
  | endSession (base postLogoutRedirectUri idTokenHint : String)
deriving DecidableEq, Repr

/-- An observable effect of a handler, in program order. -/
inductive Eff where
  | errorRecorded (msg : String)
  | errorHandlerCalled
  | aborted
  | saveCalled (ok : Bool)
  | verifyCalled (tok : String) (ok : Bool)
  | redirect (status : Nat) (t : RTarget)
  | next
deriving DecidableEq, Repr

/-- The result of a handler invocation that did not crash: the final
in-memory session and the effects performed. -/
structure HResult where
  sess : Session
  effects : List Eff
deriving DecidableEq, Repr

/-- A way a Go handler can fail to return: a failed unchecked type assertion
(runtime panic), `log.Fatal` (process exit), or the source's
rejection-sampling loop running forever (modelled by fuel exhaustion). -/
inductive Crash where
  | typeAssertion
  | fatal (msg : String)
  | divergence
deriving DecidableEq, Repr

/-- `handleError(c, i, err, message)` on a non-nil error: record
`message + " [" + err.Error() + "]"` on the context, invoke the configured
error handler once, abort.  `handleOk` delegates with the error string
"not ok". -/
def errEffects (message errString : String) : List Eff :=
  [.errorRecorded (message ++ " [" ++ errString ++ "]"), .errorHandlerCalled, .aborted]

/-- How many times the configured error handler was invoked. -/
def countErrorHandlerCalls : List Eff → Nat
  | [] => 0
  | .errorHandlerCalled :: rest => countErrorHandlerCalls rest + 1
  | _ :: rest => countErrorHandlerCalls rest

/-- Whether an external call succeeded (its Go error was nil). -/
def exOk : Except String Unit → Bool
  | .ok _ => true
  | .error _ => false

/-! ### Random token generator (src/ginoidc.go lines 240-264)

`RandomString` draws 63-bit values from the process-wide `math/rand` source
and consumes them six bits at a time, rejection-sampling indices into the
52-letter alphabet.  The source is modelled as the stream `src` of its
successive `Int63()` outputs (each reduced mod 2^63 as in Go); because the
rejection loop has no intrinsic bound, the model is fueled and returns `none`
when the fuel runs out (the Go loop would still be running). -/

/-- The alphabet constant `letterBytes`. -/
def letterBytes : String := "abcdefghijklmnopqrstuvwxyzABCDEFGHIJKLMNOPQRSTUVWXYZ"

/-- `letterIdxBits`: six bits represent a letter index. -/
def letterIdxBits : Nat := 6

/-- `letterIdxMask`: all one-bits, as many as `letterIdxBits`. -/
def letterIdxMask : Nat := 2 ^ letterIdxBits - 1

/-- `letterIdxMax`: number of letter indices fitting in 63 bits. -/
def letterIdxMax : Nat := 63 / letterIdxBits

/-- Whether every character of the list belongs to the alphabet. -/
def allInAlphabet (cs : List Char) : Bool :=
  cs.all (fun c => letterBytes.data.contains c)

/-- One character of the alphabet, by index. -/
def letterAt (idx : Nat) : Char :=
  letterBytes.data.getD idx 'a'

/-- The loop of `RandomString`.  `si` indexes the next unread stream element,
`cache` holds the remaining bits of the last `Int63()` draw, `remain` counts
how many six-bit groups of it may still be used, `need` is the number of
characters still to produce, and `acc` holds the characters produced so far
(the Go code fills the byte array from its end, so prepending reproduces the
final string).  Go's `cache & letterIdxMask` is `% 64`, `cache >>=
letterIdxBits` is `/ 64`. -/
def randomStringAux (src : Nat → Nat) :
    Nat → Nat → Nat → Nat → Nat → List Char → Option (List Char)
  | 0, _, _, _, _, _ => none
  | fuel + 1, si, cache, remain, need, acc =>
    if need = 0 then some acc
    else
      let cache₂ := if remain = 0 then src si % 2 ^ 63 else cache
      let remain₂ := if remain = 0 then letterIdxMax else remain
      let si₂ := if remain = 0 then si + 1 else si
      let idx := cache₂ % 64
      let step : List Char × Nat :=
        if idx < 52 then (letterAt idx :: acc, need - 1) else (acc, need)
      randomStringAux src fuel si₂ (cache₂ / 64) (remain₂ - 1) step.2 step.1

/-- `RandomString(n)`: the Go function over an explicit source stream, with
fuel bounding the rejection-sampling loop. -/
def RandomString (src : Nat → Nat) (fuel n : Nat) : Option String :=
  match randomStringAux src fuel 1 (src 0 % 2 ^ 63) letterIdxMax n [] with
  | none => none
  | some cs => some (String.mk cs)

/-! ### Configuration and per-request oracles -/

/-- The part of `InitParams` the modelled handlers read: the fixed callback
path, the post-logout redirect URL, and the logout endpoint URL resolved at
startup (`i.LogoutUrl`).  The error handler hook is modelled by the
`errorHandlerCalled` effect. -/
structure InitParams where
  callbackPath : String
  postLogoutUrl : String
  logoutUrl : String
deriving DecidableEq, Repr

/-- JSON claims of a verified ID token, already decoded to string key-value
pairs (`map[string]interface\x7b\x7d` restricted to the shape the model
needs). -/
def Claims := List (String × String)

/-- `json.Marshal` of a claims map.  Marshalling a map whose values were
themselves decoded from the JSON payload of a verified token cannot fail in
Go, so the model is a total function and the dead `handleError` branch after
it (src/ginoidc.go line 160) is not represented. -/
def marshalClaims (cs : Claims) : String :=
  "\x7b" ++ String.intercalate "," (cs.map (fun p => "\"" ++ p.1 ++ "\":\"" ++ p.2 ++ "\"")) ++ "\x7d"

/-- The externally determined outcomes a `callbackHandler` invocation can
observe: the `state` and `code` query parameters of the request, the token
exchange (`config.Exchange`, returning on success the dynamic value of the
response's extra `id_token` field), the ID-token verifier, the claims
decoding of the verified token, and the session store's save outcome. -/
structure CbEnv where
  queryState : String
  queryCode : String
  exchange : String → Except String GoVal
  verify : String → Except String Unit
  parseClaims : String → Except String Claims
  save : Except String Unit

/-- The externally determined outcomes a `protectMiddleware` invocation can
observe: the request path and full URL, the ID-token verifier, the
process-wide random source stream with the fuel bounding the sampling loop,
and the session store's save outcome. -/
structure PEnv where
  path : String
  urlString : String
  verify : String → Except String Unit
  randSrc : Nat → Nat
  randFuel : Nat
  save : Except String Unit

/-- The externally determined outcome a `logoutHandler` invocation can
observe: the session store's save outcome (its error is ignored by the
source). -/
structure LEnv where
  save : Except String Unit

/-! ### The three handlers (src/ginoidc.go lines 92-220) -/

/-- The five `Set` calls of the callback success path (lines 169-173):
`oidcAuthorized = true`, clear `oidcState`, clear `oidcOriginalRequestUrl`,
set `oidcClaims`, set `oidcIDToken`.  The commented-out lines 178-179 never
write `oidcAccessToken` or `oidcRefreshToken`. -/
def callbackSuccessSession (s : Session) (claimsJson rawIDToken : String) : Session :=
  ((((s.set "oidcAuthorized" (.vbool true)).set "oidcState" .vnil).set
      "oidcOriginalRequestUrl" .vnil).set "oidcClaims" (.vstr claimsJson)).set
    "oidcIDToken" (.vstr rawIDToken)

/-- `callbackHandler` (lines 124-188).  Every step is a hard gate routed
through `handleOk`/`handleError`; the session type assertions here are the
checked form, so the handler never panics. -/
def callbackHandler (i : InitParams) (env : CbEnv) (s : Session) : HResult :=
  match (s.get "oidcState").asStr? with
  | none => ⟨s, errEffects "failed to parse state" "not ok"⟩
  | some state =>
    if env.queryState = state then
      match env.exchange env.queryCode with
      | .error e => ⟨s, errEffects "failed to exchange token" e⟩
      | .ok extra =>
        match extra.asStr? with
        | none => ⟨s, errEffects "no id_token field in oauth2 token" "not ok"⟩
        | some rawIDToken =>
          match env.verify rawIDToken with
          | .error e =>
            ⟨s, .verifyCalled rawIDToken false :: errEffects "failed to verify id token" e⟩
          | .ok _ =>
            match env.parseClaims rawIDToken with
            | .error e =>
              ⟨s, .verifyCalled rawIDToken true :: errEffects "failed to parse id token" e⟩
            | .ok claims =>
              let claimsJson := marshalClaims claims
              match (s.get "oidcOriginalRequestUrl").asStr? with
              | none =>
                ⟨s, .verifyCalled rawIDToken true ::
                    errEffects "failed to parse originalRequestUrl" "not ok"⟩
              | some originalRequestUrl =>
                match env.save with
                | .error e =>
                  ⟨callbackSuccessSession s claimsJson rawIDToken,
                    [.verifyCalled rawIDToken true, .saveCalled false] ++
                      errEffects "failed save sessions." e⟩
                | .ok _ =>
                  ⟨callbackSuccessSession s claimsJson rawIDToken,
                    [.verifyCalled rawIDToken true, .saveCalled true,
                      .redirect 302 (.url originalRequestUrl)]⟩
    else
      ⟨s, errEffects "get 'state' param didn't match local 'state' value" "not ok"⟩

/-- The allowed branch of the auth gate (lines 197-206): with the session
authorized or the request on the callback path, re-verify a non-empty stored
ID token before `c.Next()`; a verification failure goes through
`handleError`.  The unchecked `rawIDToken.(string)` panics on a non-nil
non-string value. -/
def protectAllowed (env : PEnv) (s : Session) : Except Crash HResult :=
  match s.get "oidcIDToken" with
  | .vnil => .ok ⟨s, [.next]⟩
  | .vstr t =>
    if t = "" then .ok ⟨s, [.next]⟩
    else
      match env.verify t with
      | .error e =>
        .ok ⟨s, .verifyCalled t false :: errEffects "failed to verify id token" e⟩
      | .ok _ => .ok ⟨s, [.verifyCalled t true, .next]⟩
  | .vbool _ => .error .typeAssertion
  | .vother => .error .typeAssertion

/-- The four `Set` calls of the gate's redirect branch (lines 209-212):
`oidcAuthorized = false`, `oidcState = state`, `oidcOriginalRequestUrl` =
the current request URL, clear `oidcIDToken`. -/
def gateRedirectSession (s : Session) (state urlString : String) : Session :=
  (((s.set "oidcAuthorized" (.vbool false)).set "oidcState" (.vstr state)).set
      "oidcOriginalRequestUrl" (.vstr urlString)).set "oidcIDToken" .vnil

/-- The redirect branch of the auth gate (lines 208-217): generate a fresh
state with `RandomString(16)`, store the four fields, save the session --
`log.Fatal` on a save error -- then redirect to the provider's authorization
endpoint `config.AuthCodeURL(state)`. -/
def protectRedirect (env : PEnv) (s : Session) : Except Crash HResult :=
  match RandomString env.randSrc env.randFuel 16 with
  | none => .error .divergence
  | some state =>
    match env.save with
    | .error e => .error (.fatal ("failed save sessions. error: " ++ e))
    | .ok _ =>
      .ok ⟨gateRedirectSession s state env.urlString,
            [.saveCalled true, .redirect 302 (.authCode state)]⟩

/-- `protectMiddleware` (lines 190-220).  The condition
`(authorized != nil && authorized.(bool)) || path == i.CallbackPath`
evaluates the unchecked bool assertion first, so a non-nil non-bool
`oidcAuthorized` panics even on the callback path. -/
def protectMiddleware (i : InitParams) (env : PEnv) (s : Session) : Except Crash HResult :=
  match s.get "oidcAuthorized" with
  | .vnil =>
    if env.path = i.callbackPath then protectAllowed env s else protectRedirect env s
  | .vbool b =>
    if b ∨ env.path = i.callbackPath then protectAllowed env s else protectRedirect env s
  | .vstr _ => .error .typeAssertion
  | .vother => .error .typeAssertion

/-- The five `Set` calls of the logout handler (lines 102-106):
`oidcAuthorized = false` and the four other fields cleared to nil. -/
def clearedSession (s : Session) : Session :=
  ((((s.set "oidcAuthorized" (.vbool false)).set "oidcClaims" .vnil).set
      "oidcState" .vnil).set "oidcOriginalRequestUrl" .vnil).set "oidcIDToken" .vnil

/-- `logoutHandler` (lines 92-122): branch on the presence of a non-empty
stored ID token (the unchecked `rawIDToken.(string)` panics on a non-nil
non-string value), clear the session, save -- the save error is discarded by
the source -- then redirect either to the post-logout URL or to the
end-session endpoint with `post_logout_redirect_uri` and `id_token_hint`. -/
def logoutHandler (i : InitParams) (env : LEnv) (s : Session) : Except Crash HResult :=
  match s.get "oidcIDToken" with
  | .vnil =>
    .ok ⟨clearedSession s, [.saveCalled (exOk env.save), .redirect 302 (.url i.postLogoutUrl)]⟩
  | .vstr t =>
    if t = "" then
      .ok ⟨clearedSession s, [.saveCalled (exOk env.save), .redirect 302 (.url i.postLogoutUrl)]⟩
    else
      .ok ⟨clearedSession s,
            [.saveCalled (exOk env.save),
              .redirect 302 (.endSession i.logoutUrl i.postLogoutUrl t)]⟩
  | .vbool _ => .error .typeAssertion
  | .vother => .error .typeAssertion

/-! ### Startup logout-URL resolution (src/ginoidc.go lines 76-88) -/

/-- `strings.TrimSuffix`: drop the final occurrence of the suffix if the
string ends with it, else return the string unchanged. -/
def trimSuffix (s sfx : String) : String :=
  if sfx.data.isSuffixOf s.data then
    String.mk (s.data.take (s.data.length - sfx.data.length))
  else s

/-- The logout-URL resolution of `initVerifierAndConfig`: take the
discovery metadata's `end_session_endpoint` verbatim when present, else
`strings.TrimSuffix(issuer, "/") + "protocol/openid-connect/logout"`
(`url.Parse` accepts both, so it is modelled as the identity on the
string). -/
def resolveLogoutUrl (issuer : String) (endSessionEndpoint : Option String) : String :=
  match endSessionEndpoint with
  | some u => u
  | none => trimSuffix issuer "/" ++ "protocol/openid-connect/logout"

/-- The session invariant of the spec's data model, on the state alone:
an authorized session stores a non-empty ID-token string. -/
def SessionInv (s : Session) : Bool :=
  match s.get "oidcAuthorized" with
  | .vbool true => (s.get "oidcIDToken").isNonemptyStr
  | _ => true

/-! ### Helper lemmas -/

theorem letterAt_mem_alphabet :
    ∀ idx, idx < 52 → letterBytes.data.contains (letterAt idx) = true := by
  decide

theorem allInAlphabet_cons (c : Char) (cs : List Char) :
    allInAlphabet (c :: cs) = (letterBytes.data.contains c && allInAlphabet cs) := by
  simp [allInAlphabet]

theorem randomStringAux_spec (src : Nat → Nat) :
    ∀ fuel si cache remain need acc out,
      randomStringAux src fuel si cache remain need acc = some out →
      out.length = need + acc.length ∧
        (allInAlphabet acc = true → allInAlphabet out = true) := by
  intro fuel
  induction fuel with
  | zero =>
    intro si cache remain need acc out h
    simp [randomStringAux] at h
  | succ m ih =>
    intro si cache remain need acc out h
    simp only [randomStringAux] at h
    by_cases hneed : need = 0
    · rw [if_pos hneed] at h
      cases h
      simp [hneed]
    · rw [if_neg hneed] at h
      by_cases hidx : (if remain = 0 then src si % 2 ^ 63 else cache) % 64 < 52
      · rw [if_pos hidx] at h
        dsimp only at h
        obtain ⟨hlen, halpha⟩ := ih _ _ _ _ _ _ h
        constructor
        · simp only [List.length_cons] at hlen
          omega
        · intro hacc
          apply halpha
          rw [allInAlphabet_cons, letterAt_mem_alphabet _ hidx, hacc]
          rfl
      · rw [if_neg hidx] at h
        dsimp only at h
        exact ih _ _ _ _ _ _ h

theorem marshalClaims_ne_empty (cs : Claims) : marshalClaims cs ≠ "" := by
  intro h
  have hl := congrArg String.length h
  rw [marshalClaims, String.length_append, String.length_append] at hl
  have h1 : ("\x7b" : String).length = 1 := by decide
  have h2 : ("\x7d" : String).length = 1 := by decide
  have h0 : ("" : String).length = 0 := by decide
  rw [h1, h2, h0] at hl
  omega

theorem randomString_spec (src : Nat → Nat) (fuel n : Nat) (str : String)
    (h : RandomString src fuel n = some str) :
    str.length = n ∧ allInAlphabet str.data = true := by
  rw [RandomString] at h
  cases haux : randomStringAux src fuel 1 (src 0 % 2 ^ 63) letterIdxMax n [] with
  | none => rw [haux] at h; cases h
  | some cs =>
    rw [haux] at h
    cases h
    obtain ⟨hlen, halpha⟩ := randomStringAux_spec src fuel _ _ _ _ _ _ haux
    constructor
    · have hm : (String.mk cs).length = cs.length := rfl
      rw [hm, hlen]
      simp
    · have hd : (String.mk cs).data = cs := rfl
      rw [hd]
      exact halpha rfl

/-! ### Concrete fixtures used by witnesses and counterexamples -/

/-- A concrete configuration. -/
def iFix : InitParams := ⟨"/oidc-callback", "https://app.example/", "https://idp.example/logout"⟩

/-- A concrete callback environment in which every external step succeeds;
the verifier rejects the empty token, as the real JWT verifier does. -/
def cenvFix : CbEnv :=
  ⟨"S1", "C1", fun _ => .ok (.vstr "tokA"),
    fun t => if t = "" then .error "malformed jwt" else .ok (),
    fun _ => .ok [("sub", "alice")], .ok ()⟩

/-- A concrete gate environment on a non-callback path with an all-zero
random source and a working store. -/
def penvFix : PEnv :=
  ⟨"/x", "/x?y=1", fun t => if t = "" then .error "malformed jwt" else .ok (),
    fun _ => 0, 40, .ok ()⟩

/-- A concrete logout environment with a working store. -/
def lenvFix : LEnv := ⟨.ok ()⟩

/-- The empty session of a first-time visitor. -/
def sEmptyFix : Session := ⟨[]⟩

/-- A session mid-login: pending state "S1" and a stored original URL. -/
def sReadyFix : Session :=
  ⟨[("oidcState", .vstr "S1"), ("oidcOriginalRequestUrl", .vstr "/orig")]⟩

/-- An authorized session holding the verified token "tokA". -/
def sAuthFix : Session :=
  ⟨[("oidcAuthorized", .vbool true), ("oidcIDToken", .vstr "tokA")]⟩

/-! ### The claims -/

/-- Claim C9: for every N, `RandomString(N)` produces a string of exactly N
characters, each drawn from the fixed 52-character alphabet `letterBytes`.
The Go rejection-sampling loop has no intrinsic bound, so the model carries
fuel; the property holds of every string the loop returns. -/
theorem claim_C9 (src : Nat → Nat) (fuel n : Nat) (str : String)
    (h : RandomString src fuel n = some str) :
    str.length = n ∧ allInAlphabet str.data = true :=
  randomString_spec src fuel n str h

/-- Witness for C9: the all-zero source yields a concrete 16-character
alphabet string. -/
theorem claim_C9_witness :
    ("aaaaaaaaaaaaaaaa" : String).length = 16 ∧
      allInAlphabet ("aaaaaaaaaaaaaaaa" : String).data = true :=
  claim_C9 (fun _ => 0) 40 16 "aaaaaaaaaaaaaaaa" (by decide)

/-- Claim C1: when the stored session state is absent, unreadable, or
differs from the request's `state` query parameter, the callback handler
aborts before any session mutation -- the session is returned unchanged, in
particular `oidcAuthorized` is untouched -- and the configured error handler
is invoked exactly once. -/
theorem claim_C1 (i : InitParams) (env : CbEnv) (s : Session)
    (h : s.get "oidcState" ≠ GoVal.vstr env.queryState) :
    (callbackHandler i env s).sess = s ∧
    (callbackHandler i env s).sess.get "oidcAuthorized" = s.get "oidcAuthorized" ∧
    countErrorHandlerCalls (callbackHandler i env s).effects = 1 ∧
    ((callbackHandler i env s).effects = errEffects "failed to parse state" "not ok" ∨
      (callbackHandler i env s).effects =
        errEffects "get 'state' param didn't match local 'state' value" "not ok") := by
  cases hv : s.get "oidcState" with
  | vstr t =>
    have ht : ¬ env.queryState = t := by
      intro he
      exact h (by rw [hv, he])
    simp [callbackHandler, hv, GoVal.asStr?, ht, countErrorHandlerCalls, errEffects]
  | vnil =>
    simp [callbackHandler, hv, GoVal.asStr?, countErrorHandlerCalls, errEffects]
  | vbool b =>
    simp [callbackHandler, hv, GoVal.asStr?, countErrorHandlerCalls, errEffects]
  | vother =>
    simp [callbackHandler, hv, GoVal.asStr?, countErrorHandlerCalls, errEffects]

/-- Witness for C1: a first-time visitor's empty session against query state
"S1". -/
theorem claim_C1_witness :
    (callbackHandler iFix cenvFix sEmptyFix).sess = sEmptyFix ∧
    (callbackHandler iFix cenvFix sEmptyFix).sess.get "oidcAuthorized" =
      sEmptyFix.get "oidcAuthorized" ∧
    countErrorHandlerCalls (callbackHandler iFix cenvFix sEmptyFix).effects = 1 ∧
    ((callbackHandler iFix cenvFix sEmptyFix).effects =
        errEffects "failed to parse state" "not ok" ∨
      (callbackHandler iFix cenvFix sEmptyFix).effects =
        errEffects "get 'state' param didn't match local 'state' value" "not ok") :=
  claim_C1 iFix cenvFix sEmptyFix (by decide)

/-- Claim C3: when every callback step succeeds, the resulting session is
authorized with `oidcState` and `oidcOriginalRequestUrl` cleared, non-empty
`oidcClaims` and `oidcIDToken`, no access- or refresh-token key is written,
and the response is a 302 redirect to the stored original URL, issued after
the session was saved.  The hypothesis `exOk (env.verify "") = false`
records that the real verifier rejects the empty string (it is not a parsable
JWT), which makes the stored token non-empty. -/
theorem claim_C3 (i : InitParams) (env : CbEnv) (s : Session) (tok origUrl : String)
    (cs : Claims)
    (hstate : s.get "oidcState" = GoVal.vstr env.queryState)
    (hex : env.exchange env.queryCode = .ok (GoVal.vstr tok))
    (hver : env.verify tok = .ok ())
    (hvempty : exOk (env.verify "") = false)
    (hclaims : env.parseClaims tok = .ok cs)
    (horig : s.get "oidcOriginalRequestUrl" = GoVal.vstr origUrl)
    (hsave : env.save = .ok ()) :
    callbackHandler i env s =
      ⟨callbackSuccessSession s (marshalClaims cs) tok,
        [.verifyCalled tok true, .saveCalled true, .redirect 302 (.url origUrl)]⟩ ∧
    (callbackSuccessSession s (marshalClaims cs) tok).get "oidcAuthorized" = .vbool true ∧
    (callbackSuccessSession s (marshalClaims cs) tok).get "oidcState" = .vnil ∧
    (callbackSuccessSession s (marshalClaims cs) tok).get "oidcOriginalRequestUrl" = .vnil ∧
    (callbackSuccessSession s (marshalClaims cs) tok).get "oidcClaims" =
      .vstr (marshalClaims cs) ∧
    marshalClaims cs ≠ "" ∧
    (callbackSuccessSession s (marshalClaims cs) tok).get "oidcIDToken" = .vstr tok ∧
    tok ≠ "" ∧
    (callbackSuccessSession s (marshalClaims cs) tok).get "oidcAccessToken" =
      s.get "oidcAccessToken" ∧
    (callbackSuccessSession s (marshalClaims cs) tok).get "oidcRefreshToken" =
      s.get "oidcRefreshToken" := by
  have htok : tok ≠ "" := by
    intro he
    rw [he] at hver
    rw [hver] at hvempty
    simp [exOk] at hvempty
  refine ⟨?_, ?_, ?_, ?_, ?_, marshalClaims_ne_empty cs, ?_, htok, ?_, ?_⟩
  · simp [callbackHandler, hstate, hex, hver, hclaims, horig, hsave, GoVal.asStr?]
  all_goals
    simp [callbackSuccessSession, Session.get_set_same, Session.get_set_ne]

/-- Witness for C3 at the concrete all-success environment. -/
theorem claim_C3_witness :
    callbackHandler iFix cenvFix sReadyFix =
      ⟨callbackSuccessSession sReadyFix (marshalClaims [("sub", "alice")]) "tokA",
        [.verifyCalled "tokA" true, .saveCalled true, .redirect 302 (.url "/orig")]⟩ ∧
    (callbackSuccessSession sReadyFix (marshalClaims [("sub", "alice")]) "tokA").get
        "oidcAuthorized" = .vbool true ∧
    (callbackSuccessSession sReadyFix (marshalClaims [("sub", "alice")]) "tokA").get
        "oidcState" = .vnil ∧
    (callbackSuccessSession sReadyFix (marshalClaims [("sub", "alice")]) "tokA").get
        "oidcOriginalRequestUrl" = .vnil ∧
    (callbackSuccessSession sReadyFix (marshalClaims [("sub", "alice")]) "tokA").get
        "oidcClaims" = .vstr (marshalClaims [("sub", "alice")]) ∧
    marshalClaims [("sub", "alice")] ≠ "" ∧
    (callbackSuccessSession sReadyFix (marshalClaims [("sub", "alice")]) "tokA").get
        "oidcIDToken" = .vstr "tokA" ∧
    "tokA" ≠ "" ∧
    (callbackSuccessSession sReadyFix (marshalClaims [("sub", "alice")]) "tokA").get
        "oidcAccessToken" = sReadyFix.get "oidcAccessToken" ∧
    (callbackSuccessSession sReadyFix (marshalClaims [("sub", "alice")]) "tokA").get
        "oidcRefreshToken" = sReadyFix.get "oidcRefreshToken" :=
  claim_C3 iFix cenvFix sReadyFix "tokA" "/orig" [("sub", "alice")]
    (by decide) rfl rfl (by decide) rfl (by decide) rfl

/-- Claim C7: with `end_session_endpoint` present in the discovery metadata
the logout URL is exactly that URL; with it absent, the code produces
`TrimSuffix(issuer, "/") + "protocol/openid-connect/logout"`, which never
inserts a path separator -- for the issuer
"https://keycloak.example/realms/demo" (with or without a trailing slash)
the result glues "demo" to "protocol", diverging from the claim's
"issuer URL followed by a path separator and that segment". -/
theorem claim_C7 :
    (∀ issuer u : String, resolveLogoutUrl issuer (some u) = u) ∧
    resolveLogoutUrl "https://keycloak.example/realms/demo" none =
      "https://keycloak.example/realms/demoprotocol/openid-connect/logout" ∧
    resolveLogoutUrl "https://keycloak.example/realms/demo/" none =
      "https://keycloak.example/realms/demoprotocol/openid-connect/logout" :=
  ⟨fun _ _ => rfl, by decide, by decide⟩

/-- Claim C4: a request with an unauthenticated session (the `oidcAuthorized`
value is nil or false; ill-typed values panic instead, see C10) on a
non-callback path makes the gate store `authorized=false`, the fresh
16-character random state, the original request URL, and a cleared ID token,
save the session, and only then redirect to the provider's authorization
endpoint carrying that state. -/
theorem claim_C4 (i : InitParams) (env : PEnv) (s : Session) (st : String)
    (hauth : (s.get "oidcAuthorized").isBoolish = true)
    (hnottrue : s.get "oidcAuthorized" ≠ GoVal.vbool true)
    (hpath : env.path ≠ i.callbackPath)
    (hrand : RandomString env.randSrc env.randFuel 16 = some st)
    (hsave : env.save = .ok ()) :
    protectMiddleware i env s =
      .ok ⟨gateRedirectSession s st env.urlString,
            [.saveCalled true, .redirect 302 (.authCode st)]⟩ ∧
    st.length = 16 ∧ st ≠ "" ∧ allInAlphabet st.data = true ∧
    (gateRedirectSession s st env.urlString).get "oidcAuthorized" = .vbool false ∧
    (gateRedirectSession s st env.urlString).get "oidcState" = .vstr st ∧
    (gateRedirectSession s st env.urlString).get "oidcOriginalRequestUrl" =
      .vstr env.urlString ∧
    (gateRedirectSession s st env.urlString).get "oidcIDToken" = .vnil := by
  obtain ⟨hlen, halpha⟩ := randomString_spec _ _ _ _ hrand
  have hne : st ≠ "" := by
    intro he
    rw [he] at hlen
    exact absurd hlen (by decide)
  refine ⟨?_, hlen, hne, halpha, ?_, ?_, ?_, ?_⟩
  · cases hv : s.get "oidcAuthorized" with
    | vnil => simp [protectMiddleware, hv, hpath, protectRedirect, hrand, hsave]
    | vbool b =>
      cases b with
      | true => exact absurd hv hnottrue
      | false => simp [protectMiddleware, hv, hpath, protectRedirect, hrand, hsave]
    | vstr t =>
      rw [hv] at hauth
      simp [GoVal.isBoolish] at hauth
    | vother =>
      rw [hv] at hauth
      simp [GoVal.isBoolish] at hauth
  all_goals simp [gateRedirectSession, Session.get_set_same, Session.get_set_ne]

/-- Witness for C4: the empty session on the non-callback path "/x". -/
theorem claim_C4_witness :
    protectMiddleware iFix penvFix sEmptyFix =
      .ok ⟨gateRedirectSession sEmptyFix "aaaaaaaaaaaaaaaa" "/x?y=1",
            [.saveCalled true, .redirect 302 (.authCode "aaaaaaaaaaaaaaaa")]⟩ :=
  (claim_C4 iFix penvFix sEmptyFix "aaaaaaaaaaaaaaaa" (by decide) (by decide)
    (by decide) (by decide) rfl).1

/-- Claim C5: with the session authorized, or on the callback path (and a
well-typed `oidcAuthorized`, see C10), the gate forwards to the next handler;
a non-empty well-typed stored ID token is re-verified first, and a
verification failure aborts through the error handler instead of reaching
the protected handler.  The session is unchanged in every branch. -/
theorem claim_C5 (i : InitParams) (env : PEnv) (s : Session) (t e : String)
    (hallow : s.get "oidcAuthorized" = GoVal.vbool true ∨
      (env.path = i.callbackPath ∧ (s.get "oidcAuthorized").isBoolish = true)) :
    ((s.get "oidcIDToken" = .vnil ∨ s.get "oidcIDToken" = .vstr "") →
      protectMiddleware i env s = .ok ⟨s, [.next]⟩) ∧
    (s.get "oidcIDToken" = .vstr t → t ≠ "" → env.verify t = .ok () →
      protectMiddleware i env s = .ok ⟨s, [.verifyCalled t true, .next]⟩) ∧
    (s.get "oidcIDToken" = .vstr t → t ≠ "" → env.verify t = .error e →
      protectMiddleware i env s =
        .ok ⟨s, .verifyCalled t false :: errEffects "failed to verify id token" e⟩) := by
  have hstep : protectMiddleware i env s = protectAllowed env s := by
    rcases hallow with hv | ⟨hp, hb⟩
    · simp [protectMiddleware, hv]
    · cases hv : s.get "oidcAuthorized" with
      | vnil => simp [protectMiddleware, hv, hp]
      | vbool b => simp [protectMiddleware, hv, hp]
      | vstr t2 =>
        rw [hv] at hb
        simp [GoVal.isBoolish] at hb
      | vother =>
        rw [hv] at hb
        simp [GoVal.isBoolish] at hb
  refine ⟨?_, ?_, ?_⟩
  · rintro (hT | hT) <;> rw [hstep] <;> simp [protectAllowed, hT]
  · intro hT hne hv
    rw [hstep]
    simp [protectAllowed, hT, hne, hv]
  · intro hT hne hv
    rw [hstep]
    simp [protectAllowed, hT, hne, hv]

/-- Witness for C5: an authorized session with token "tokA" passes the gate
after a successful re-verification. -/
theorem claim_C5_witness :
    protectMiddleware iFix penvFix sAuthFix =
      .ok ⟨sAuthFix, [.verifyCalled "tokA" true, .next]⟩ :=
  (claim_C5 iFix penvFix sAuthFix "tokA" "x" (Or.inl (by decide))).2.1
    (by decide) (by decide) rfl

/-- Claim C8: the logout redirect target is determined solely by the stored
ID token -- absent or empty gives the post-logout URL with no provider call,
non-empty gives the end-session endpoint with `post_logout_redirect_uri` and
`id_token_hint` set to the token just cleared -- and in both branches all
five session auth fields are cleared (the `Set` calls and the save precede
the redirect in the effect order). -/
theorem claim_C8 (i : InitParams) (env : LEnv) (s : Session) (t : String) :
    ((s.get "oidcIDToken" = .vnil ∨ s.get "oidcIDToken" = .vstr "") →
      logoutHandler i env s =
        .ok ⟨clearedSession s,
              [.saveCalled (exOk env.save), .redirect 302 (.url i.postLogoutUrl)]⟩) ∧
    (s.get "oidcIDToken" = .vstr t → t ≠ "" →
      logoutHandler i env s =
        .ok ⟨clearedSession s,
              [.saveCalled (exOk env.save),
                .redirect 302 (.endSession i.logoutUrl i.postLogoutUrl t)]⟩) ∧
    (clearedSession s).get "oidcAuthorized" = .vbool false ∧
    (clearedSession s).get "oidcState" = .vnil ∧
    (clearedSession s).get "oidcOriginalRequestUrl" = .vnil ∧
    (clearedSession s).get "oidcClaims" = .vnil ∧
    (clearedSession s).get "oidcIDToken" = .vnil := by
  refine ⟨?_, ?_, ?_, ?_, ?_, ?_, ?_⟩
  · rintro (hT | hT) <;> simp [logoutHandler, hT]
  · intro hT hne
    simp [logoutHandler, hT, hne]
  all_goals simp [clearedSession, Session.get_set_same, Session.get_set_ne]

/-- Witness for C8: logout of the authorized session redirects to the
end-session endpoint with the cleared token as hint. -/
theorem claim_C8_witness :
    logoutHandler iFix lenvFix sAuthFix =
      .ok ⟨clearedSession sAuthFix,
            [.saveCalled true,
              .redirect 302
                (.endSession "https://idp.example/logout" "https://app.example/" "tokA")]⟩ :=
  (claim_C8 iFix lenvFix sAuthFix "tokA").2.1 (by decide) (by decide)

/-! ### Ill-typed session fixtures for C10 -/

/-- A session with a non-nil, non-bool value under `oidcAuthorized`. -/
def sIllAuthFix : Session := ⟨[("oidcAuthorized", .vother)]⟩

/-- An authorized session with a non-nil, non-string value under
`oidcIDToken`. -/
def sIllTokFix : Session := ⟨[("oidcAuthorized", .vbool true), ("oidcIDToken", .vbool true)]⟩

/-- A session with a non-nil, non-string value under `oidcIDToken`, as seen
by the logout handler. -/
def sIllLogoutFix : Session := ⟨[("oidcIDToken", .vother)]⟩

/-- A session with a non-string value under `oidcState`. -/
def sIllCbStateFix : Session := ⟨[("oidcState", .vbool true)]⟩

/-- A session with a matching state but a non-string value under
`oidcOriginalRequestUrl`. -/
def sIllCbOrigFix : Session :=
  ⟨[("oidcState", .vstr "S1"), ("oidcOriginalRequestUrl", .vbool true)]⟩

theorem protectAllowed_no_panic (env : PEnv) (s : Session)
    (hs : (s.get "oidcIDToken").isStrish = true) :
    protectAllowed env s ≠ .error .typeAssertion := by
  cases hv : s.get "oidcIDToken" with
  | vnil => simp [protectAllowed, hv]
  | vstr t =>
    by_cases he : t = ""
    · simp [protectAllowed, hv, he]
    · cases hvr : env.verify t with
      | error e => simp [protectAllowed, hv, he, hvr]
      | ok u => simp [protectAllowed, hv, he, hvr]
  | vbool b =>
    rw [hv] at hs
    simp [GoVal.isStrish] at hs
  | vother =>
    rw [hv] at hs
    simp [GoVal.isStrish] at hs

theorem protectRedirect_no_panic (env : PEnv) (s : Session) :
    protectRedirect env s ≠ .error .typeAssertion := by
  cases hr : RandomString env.randSrc env.randFuel 16 with
  | none => simp [protectRedirect, hr]
  | some st =>
    cases hsv : env.save with
    | error e => simp [protectRedirect, hr, hsv]
    | ok u => simp [protectRedirect, hr, hsv]

/-- Claim C10: the gate and the logout handler use unchecked type assertions
on `oidcAuthorized` and `oidcIDToken`, so an ill-typed stored value panics
(the gate asserts the bool before even checking the callback path); sessions
whose stored values are well-typed never reach the panic branch; and the
callback handler routes its ill-typed `oidcState` and
`oidcOriginalRequestUrl` reads to the error handler through checked
assertions instead of panicking. -/
theorem claim_C10 (i : InitParams) (env : PEnv) (lenv : LEnv) (s : Session)
    (hb : (s.get "oidcAuthorized").isBoolish = true)
    (hs : (s.get "oidcIDToken").isStrish = true) :
    protectMiddleware iFix penvFix sIllAuthFix = .error .typeAssertion ∧
    protectMiddleware iFix penvFix sIllTokFix = .error .typeAssertion ∧
    logoutHandler iFix lenvFix sIllLogoutFix = .error .typeAssertion ∧
    callbackHandler iFix cenvFix sIllCbStateFix =
      ⟨sIllCbStateFix, errEffects "failed to parse state" "not ok"⟩ ∧
    callbackHandler iFix cenvFix sIllCbOrigFix =
      ⟨sIllCbOrigFix,
        .verifyCalled "tokA" true ::
          errEffects "failed to parse originalRequestUrl" "not ok"⟩ ∧
    protectMiddleware i env s ≠ .error .typeAssertion ∧
    logoutHandler i lenv s ≠ .error .typeAssertion := by
  refine ⟨by decide, by decide, by decide, by decide, by decide, ?_, ?_⟩
  · cases hv : s.get "oidcAuthorized" with
    | vnil =>
      by_cases hp : env.path = i.callbackPath
      · simpa [protectMiddleware, hv, hp] using protectAllowed_no_panic env s hs
      · simpa [protectMiddleware, hv, hp] using protectRedirect_no_panic env s
    | vbool b =>
      cases b with
      | true => simpa [protectMiddleware, hv] using protectAllowed_no_panic env s hs
      | false =>
        by_cases hp : env.path = i.callbackPath
        · simpa [protectMiddleware, hv, hp] using protectAllowed_no_panic env s hs
        · simpa [protectMiddleware, hv, hp] using protectRedirect_no_panic env s
    | vstr t =>
      rw [hv] at hb
      simp [GoVal.isBoolish] at hb
    | vother =>
      rw [hv] at hb
      simp [GoVal.isBoolish] at hb
  · cases hv : s.get "oidcIDToken" with
    | vnil => simp [logoutHandler, hv]
    | vstr t =>
      by_cases he : t = ""
      · simp [logoutHandler, hv, he]
      · simp [logoutHandler, hv, he]
    | vbool b =>
      rw [hv] at hs
      simp [GoVal.isStrish] at hs
    | vother =>
      rw [hv] at hs
      simp [GoVal.isStrish] at hs

/-- Witness for C10: the empty session is well-typed, so the gate does not
panic on it. -/
theorem claim_C10_witness :
    protectMiddleware iFix penvFix sEmptyFix ≠ .error .typeAssertion :=
  (claim_C10 iFix penvFix lenvFix sEmptyFix (by decide) (by decide)).2.2.2.2.2.1

/-! ### Claim C2 -/

/-- A callback environment whose token exchange fails. -/
def cenvExFailFix : CbEnv :=
  ⟨"S1", "C1", fun _ => .error "exchange down",
    fun t => if t = "" then .error "malformed jwt" else .ok (),
    fun _ => .ok [("sub", "alice")], .ok ()⟩

/-- A session with only the pending login state "S1". -/
def sStateFix : Session := ⟨[("oidcState", .vstr "S1")]⟩

/-- Counterexample to C2 as stated: the callback reads and compares the
stored state "S1" successfully (the recorded error is the exchange failure,
which is only reachable after the state comparison), yet the session still
holds `oidcState = "S1"` afterwards -- the consumed state is not cleared
when a later step fails, so it remains available for replay. -/
theorem claim_C2_counterexample :
    callbackHandler iFix cenvExFailFix sStateFix =
      ⟨sStateFix, errEffects "failed to exchange token" "exchange down"⟩ ∧
    (callbackHandler iFix cenvExFailFix sStateFix).sess.get "oidcState" = .vstr "S1" ∧
    (callbackHandler iFix cenvExFailFix sStateFix).sess.get "oidcState" ≠ .vnil :=
  ⟨by decide, by decide, by decide⟩

/-- Every callback run either aborts with the session untouched and the
error handler invoked once, or commits the success-path session for some
token that the verifier accepted during this run. -/
theorem callbackHandler_characterization (i : InitParams) (env : CbEnv) (s : Session) :
    ((callbackHandler i env s).sess = s ∧
      countErrorHandlerCalls (callbackHandler i env s).effects = 1) ∨
    (∃ tok cs,
      env.verify tok = .ok () ∧
      (callbackHandler i env s).sess = callbackSuccessSession s (marshalClaims cs) tok ∧
      Eff.verifyCalled tok true ∈ (callbackHandler i env s).effects) := by
  cases hv : s.get "oidcState" with
  | vnil =>
    exact Or.inl (by
      simp [callbackHandler, hv, GoVal.asStr?, countErrorHandlerCalls, errEffects])
  | vbool b =>
    exact Or.inl (by
      simp [callbackHandler, hv, GoVal.asStr?, countErrorHandlerCalls, errEffects])
  | vother =>
    exact Or.inl (by
      simp [callbackHandler, hv, GoVal.asStr?, countErrorHandlerCalls, errEffects])
  | vstr st =>
    by_cases hq : env.queryState = st
    · cases hex : env.exchange env.queryCode with
      | error e =>
        exact Or.inl (by
          simp [callbackHandler, hv, GoVal.asStr?, hq, hex, countErrorHandlerCalls,
            errEffects])
      | ok extra =>
        cases extra with
        | vnil =>
          exact Or.inl (by
            simp [callbackHandler, hv, GoVal.asStr?, hq, hex, countErrorHandlerCalls,
              errEffects])
        | vbool b2 =>
          exact Or.inl (by
            simp [callbackHandler, hv, GoVal.asStr?, hq, hex, countErrorHandlerCalls,
              errEffects])
        | vother =>
          exact Or.inl (by
            simp [callbackHandler, hv, GoVal.asStr?, hq, hex, countErrorHandlerCalls,
              errEffects])
        | vstr tok =>
          cases hver : env.verify tok with
          | error e =>
            exact Or.inl (by
              simp [callbackHandler, hv, GoVal.asStr?, hq, hex, hver,
                countErrorHandlerCalls, errEffects])
          | ok u =>
            cases u
            cases hcl : env.parseClaims tok with
            | error e =>
              exact Or.inl (by
                simp [callbackHandler, hv, GoVal.asStr?, hq, hex, hver, hcl,
                  countErrorHandlerCalls, errEffects])
            | ok cs =>
              cases ho : s.get "oidcOriginalRequestUrl" with
              | vnil =>
                exact Or.inl (by
                  simp [callbackHandler, hv, GoVal.asStr?, hq, hex, hver, hcl, ho,
                    countErrorHandlerCalls, errEffects])
              | vbool b3 =>
                exact Or.inl (by
                  simp [callbackHandler, hv, GoVal.asStr?, hq, hex, hver, hcl, ho,
                    countErrorHandlerCalls, errEffects])
              | vother =>
                exact Or.inl (by
                  simp [callbackHandler, hv, GoVal.asStr?, hq, hex, hver, hcl, ho,
                    countErrorHandlerCalls, errEffects])
              | vstr origUrl =>
                cases hsv : env.save with
                | error e =>
                  refine Or.inr ⟨tok, cs, hver, ?_, ?_⟩ <;>
                    simp [callbackHandler, hv, GoVal.asStr?, hq, hex, hver, hcl, ho,
                      hsv, errEffects]
                | ok u2 =>
                  cases u2
                  refine Or.inr ⟨tok, cs, hver, ?_, ?_⟩ <;>
                    simp [callbackHandler, hv, GoVal.asStr?, hq, hex, hver, hcl, ho, hsv]
    · exact Or.inl (by
        simp [callbackHandler, hv, GoVal.asStr?, hq, countErrorHandlerCalls, errEffects])

theorem protectAllowed_ok_sess (env : PEnv) (s : Session) (r : HResult)
    (h : protectAllowed env s = .ok r) : r.sess = s := by
  cases hv : s.get "oidcIDToken" with
  | vnil =>
    simp [protectAllowed, hv] at h
    subst h
    rfl
  | vstr t =>
    by_cases he : t = ""
    · simp [protectAllowed, hv, he] at h
      subst h
      rfl
    · cases hvr : env.verify t with
      | error e =>
        simp [protectAllowed, hv, he, hvr] at h
        subst h
        rfl
      | ok u =>
        cases u
        simp [protectAllowed, hv, he, hvr] at h
        subst h
        rfl
  | vbool b => simp [protectAllowed, hv] at h
  | vother => simp [protectAllowed, hv] at h

theorem protectRedirect_ok_inv (env : PEnv) (s : Session) (r : HResult)
    (h : protectRedirect env s = .ok r) : SessionInv r.sess = true := by
  cases hr : RandomString env.randSrc env.randFuel 16 with
  | none => simp [protectRedirect, hr] at h
  | some st =>
    cases hsv : env.save with
    | error e => simp [protectRedirect, hr, hsv] at h
    | ok u =>
      cases u
      simp [protectRedirect, hr, hsv] at h
      subst h
      simp [SessionInv, gateRedirectSession, Session.get_set_same, Session.get_set_ne]

theorem logoutHandler_ok (i : InitParams) (env : LEnv) (s : Session) (r : HResult)
    (h : logoutHandler i env s = .ok r) :
    r.sess = clearedSession s ∧ countErrorHandlerCalls r.effects = 0 ∧
      Eff.saveCalled (exOk env.save) ∈ r.effects := by
  cases hv : s.get "oidcIDToken" with
  | vnil =>
    simp [logoutHandler, hv] at h
    subst h
    exact ⟨rfl, rfl, by simp⟩
  | vstr t =>
    by_cases he : t = ""
    · simp [logoutHandler, hv, he] at h
      subst h
      exact ⟨rfl, rfl, by simp⟩
    · simp [logoutHandler, hv, he] at h
      subst h
      exact ⟨rfl, rfl, by simp⟩
  | vbool b => simp [logoutHandler, hv] at h
  | vother => simp [logoutHandler, hv] at h

theorem protect_preserves_inv (i : InitParams) (penv : PEnv) (s : Session) (r : HResult)
    (hpr : protectMiddleware i penv s = .ok r) (hinv : SessionInv s = true) :
    SessionInv r.sess = true := by
  cases hv : s.get "oidcAuthorized" with
  | vstr t => simp [protectMiddleware, hv] at hpr
  | vother => simp [protectMiddleware, hv] at hpr
  | vnil =>
    simp [protectMiddleware, hv] at hpr
    by_cases hp : penv.path = i.callbackPath
    · rw [if_pos hp] at hpr
      rw [protectAllowed_ok_sess penv s r hpr]
      exact hinv
    · rw [if_neg hp] at hpr
      exact protectRedirect_ok_inv penv s r hpr
  | vbool b =>
    simp [protectMiddleware, hv] at hpr
    by_cases hb2 : b = true ∨ penv.path = i.callbackPath
    · rw [if_pos hb2] at hpr
      rw [protectAllowed_ok_sess penv s r hpr]
      exact hinv
    · rw [if_neg hb2] at hpr
      exact protectRedirect_ok_inv penv s r hpr

/-- Claim C2 (amended): the data-model invariant `authorized = true implies a
non-empty, once-verified stored ID token` is preserved by the callback
handler (given that the real verifier rejects the empty string), the auth
gate and the logout handler; a callback that completes without invoking the
error handler leaves `oidcState` cleared; but -- the amendment -- a callback
that fails after consuming the state leaves the session, including the
consumed `oidcState`, unchanged rather than clearing it. -/
theorem claim_C2 (i : InitParams) (env : CbEnv) (penv : PEnv) (lenv : LEnv)
    (s : Session) (tok e : String) (r r₂ : HResult) :
    (exOk (env.verify "") = false → SessionInv s = true →
      SessionInv (callbackHandler i env s).sess = true) ∧
    ((callbackHandler i env s).sess.get "oidcIDToken" = .vstr tok →
      s.get "oidcIDToken" ≠ .vstr tok →
      Eff.verifyCalled tok true ∈ (callbackHandler i env s).effects) ∧
    (countErrorHandlerCalls (callbackHandler i env s).effects = 0 →
      (callbackHandler i env s).sess.get "oidcState" = .vnil) ∧
    (s.get "oidcState" = .vstr env.queryState →
      env.exchange env.queryCode = .error e →
      (callbackHandler i env s).sess = s ∧
      (callbackHandler i env s).sess.get "oidcState" = .vstr env.queryState) ∧
    (protectMiddleware i penv s = .ok r → SessionInv s = true →
      SessionInv r.sess = true) ∧
    (logoutHandler i lenv s = .ok r₂ → SessionInv r₂.sess = true) := by
  rcases callbackHandler_characterization i env s with
    ⟨hsess, hcount⟩ | ⟨tok₀, cs₀, hver₀, hsess, hmem⟩
  case inl =>
    refine ⟨?_, ?_, ?_, ?_, ?_, ?_⟩
    · intro _ hinv
      rw [hsess]
      exact hinv
    · intro hT hne
      rw [hsess] at hT
      exact absurd hT hne
    · intro hc
      rw [hcount] at hc
      cases hc
    · intro hst hexe
      refine ⟨?_, ?_⟩ <;> simp [callbackHandler, hst, GoVal.asStr?, hexe]
    · intro hpr hinv
      exact protect_preserves_inv i penv s r hpr hinv
    · intro h2
      rw [(logoutHandler_ok i lenv s r₂ h2).1]
      simp [SessionInv, clearedSession, Session.get_set_same, Session.get_set_ne]
  case inr =>
    refine ⟨?_, ?_, ?_, ?_, ?_, ?_⟩
    · intro hvempty _
      have htok : tok₀ ≠ "" := by
        intro heq
        rw [heq] at hver₀
        rw [hver₀] at hvempty
        simp [exOk] at hvempty
      rw [hsess]
      simp [SessionInv, callbackSuccessSession, Session.get_set_same,
        Session.get_set_ne, GoVal.isNonemptyStr, htok]
    · intro hT _
      rw [hsess] at hT
      simp [callbackSuccessSession, Session.get_set_same] at hT
      rw [← hT]
      exact hmem
    · intro _
      rw [hsess]
      simp [callbackSuccessSession, Session.get_set_same, Session.get_set_ne]
    · intro hst hexe
      refine ⟨?_, ?_⟩ <;> simp [callbackHandler, hst, GoVal.asStr?, hexe]
    · intro hpr hinv
      exact protect_preserves_inv i penv s r hpr hinv
    · intro h2
      rw [(logoutHandler_ok i lenv s r₂ h2).1]
      simp [SessionInv, clearedSession, Session.get_set_same, Session.get_set_ne]

/-- Witness for C2 at the all-success environment: the resulting authorized
session satisfies the invariant. -/
theorem claim_C2_witness :
    SessionInv (callbackHandler iFix cenvFix sReadyFix).sess = true :=
  (claim_C2 iFix cenvFix penvFix lenvFix sReadyFix "tokA" "x"
      ⟨sEmptyFix, []⟩ ⟨sEmptyFix, []⟩).1 (by decide) (by decide)

/-! ### Claim C6 -/

/-- A callback environment succeeding until the session save, which fails. -/
def cenvSaveFailFix : CbEnv :=
  ⟨"S1", "C1", fun _ => .ok (.vstr "tokA"),
    fun t => if t = "" then .error "malformed jwt" else .ok (),
    fun _ => .ok [("sub", "alice")], .error "store down"⟩

/-- A gate environment whose session save fails. -/
def penvSaveFailFix : PEnv :=
  ⟨"/x", "/x?y=1", fun t => if t = "" then .error "malformed jwt" else .ok (),
    fun _ => 0, 40, .error "store down"⟩

/-- A logout environment whose session save fails. -/
def lenvBadFix : LEnv := ⟨.error "store down"⟩

/-- Counterexample to C6 as stated: a logout whose session save fails does
not delegate to the configured error handler at all -- the error is
discarded and the logout redirect still proceeds. -/
theorem claim_C6_counterexample :
    logoutHandler iFix lenvBadFix sEmptyFix =
      .ok ⟨clearedSession sEmptyFix,
            [.saveCalled false, .redirect 302 (.url "https://app.example/")]⟩ ∧
    countErrorHandlerCalls
        [Eff.saveCalled false, Eff.redirect 302 (.url "https://app.example/")] = 0 :=
  ⟨by decide, rfl⟩

/-- Claim C6 (amended): a session-save failure in the callback handler is
recorded with a message naming the cause and delegated to the error handler
exactly once, aborting only that request; but in the auth gate the same
failure terminates the whole process through `log.Fatal` without invoking
the error handler, and in the logout handler the save error is silently
discarded -- the error handler is not invoked and the cleared-session logout
redirect still proceeds. -/
theorem claim_C6 (i : InitParams) (env : CbEnv) (penv : PEnv) (lenv : LEnv)
    (s : Session) (tok origUrl e st : String) (cs : Claims) (r : HResult)
    (hstate : s.get "oidcState" = GoVal.vstr env.queryState)
    (hex : env.exchange env.queryCode = .ok (GoVal.vstr tok))
    (hver : env.verify tok = .ok ())
    (hclaims : env.parseClaims tok = .ok cs)
    (horig : s.get "oidcOriginalRequestUrl" = GoVal.vstr origUrl)
    (hsaveC : env.save = .error e)
    (hauth : (s.get "oidcAuthorized").isBoolish = true)
    (hnottrue : s.get "oidcAuthorized" ≠ GoVal.vbool true)
    (hpath : penv.path ≠ i.callbackPath)
    (hrand : RandomString penv.randSrc penv.randFuel 16 = some st)
    (hsaveP : penv.save = .error e)
    (hsaveL : lenv.save = .error e) :
    callbackHandler i env s =
      ⟨callbackSuccessSession s (marshalClaims cs) tok,
        [.verifyCalled tok true, .saveCalled false] ++
          errEffects "failed save sessions." e⟩ ∧
    countErrorHandlerCalls ([.verifyCalled tok true, .saveCalled false] ++
        errEffects "failed save sessions." e) = 1 ∧
    protectMiddleware i penv s = .error (.fatal ("failed save sessions. error: " ++ e)) ∧
    (logoutHandler i lenv s = .ok r →
      countErrorHandlerCalls r.effects = 0 ∧ r.sess = clearedSession s ∧
        Eff.saveCalled false ∈ r.effects) := by
  refine ⟨?_, rfl, ?_, ?_⟩
  · simp [callbackHandler, hstate, hex, hver, hclaims, horig, hsaveC, GoVal.asStr?]
  · cases hv : s.get "oidcAuthorized" with
    | vnil => simp [protectMiddleware, hv, hpath, protectRedirect, hrand, hsaveP]
    | vbool b =>
      cases b with
      | true => exact absurd hv hnottrue
      | false => simp [protectMiddleware, hv, hpath, protectRedirect, hrand, hsaveP]
    | vstr t =>
      rw [hv] at hauth
      simp [GoVal.isBoolish] at hauth
    | vother =>
      rw [hv] at hauth
      simp [GoVal.isBoolish] at hauth
  · intro h2
    obtain ⟨hse, hcnt, hmem⟩ := logoutHandler_ok i lenv s r h2
    rw [hsaveL] at hmem
    exact ⟨hcnt, hse, hmem⟩

/-- Witness for C6: with the store down, the gate on the mid-login session
dies with the fatal save message instead of reaching the error handler. -/
theorem claim_C6_witness :
    protectMiddleware iFix penvSaveFailFix sReadyFix =
      .error (.fatal ("failed save sessions. error: " ++ "store down")) :=
  (claim_C6 iFix cenvSaveFailFix penvSaveFailFix lenvBadFix sReadyFix "tokA" "/orig"
      "store down" "aaaaaaaaaaaaaaaa" [("sub", "alice")] ⟨sEmptyFix, []⟩
      (by decide) rfl rfl rfl (by decide) rfl (by decide) (by decide) (by decide)
      (by decide) rfl rfl).2.2.1

end GinOidc
